import Mathlib

/-!
Verification of the client-side rule-based eligibility evaluator of the
scholarmap-client repository (the fallback "qualify" flow, `handleSubmit`).

The evaluator takes a user profile (form data) and a list of programs, each
carrying a list of structured eligibility rules, and classifies every program
into one of three buckets: eligible, maybe, not_eligible.

The embedding below mirrors the source loop:
  - `FormData` is the profile the form collects;
  - `RuleValue` records the four fields the evaluator reads off the rule
    JSON `value` payload (`countries`, `min`, `degrees`, `years`), each
    optional because the payload is an open JSON object;
  - `rulePasses` is the branch condition under which the loop body executes
    `matches++` for one rule (its negation executes `fails++`);
  - `classify` is the bucket assignment for one program;
  - `evaluate` is the whole loop over the program list, preserving order.
JavaScript numbers appearing in GPA thresholds are modelled as rationals.
-/

namespace ScholarmapClient

/-- The profile data of the qualify form (`FormData` in the source). -/
structure FormData where
  nationality : String
  degree : String
  gpa_band : String
  field : String
  work_experience_years : ℚ
deriving DecidableEq

/-- The fields of the rule JSON `value` payload that the evaluator reads.
Each is optional: a JavaScript property access on an absent key yields
`undefined`, modelled as `none`. -/
structure RuleValue where
  countries : Option (List String)
  min : Option ℚ
  degrees : Option (List String)
  years : Option ℚ
deriving DecidableEq

/-- One `eligibility_rules` row as the evaluator sees it. -/
structure EligibilityRule where
  rule_type : String
  operator : String
  value : RuleValue
  confidence : String
deriving DecidableEq

/-- A program together with its attached eligibility rules (the fields the
evaluator and results rendering read). -/
structure Program where
  id : String
  name : String
  provider : String
  level : String
  eligibility_rules : List EligibilityRule
deriving DecidableEq

/-- The fixed GPA band → representative midpoint lookup table (`gpaMap` in
the source). An unrecognized band has no entry (`gpaMap[k]` is `undefined`). -/
def gpaMap : String → Option ℚ
  | "below_2.5" => some 2
  | "2.5_3.0" => some (11 / 4)
  | "3.0_3.5" => some (13 / 4)
  | "3.5_4.0" => some (15 / 4)
  | "above_4.0" => some 4
  | _ => none

/-- The per-rule branch condition of the evaluator loop: `rulePasses f r`
is `true` exactly when the loop body runs `matches++` for rule `r`, and
`false` exactly when it runs `fails++`.

  - `nationality`/`in`: `val.countries?.includes(form.nationality)`;
    an absent `countries` array yields `undefined`, which is falsy.
  - `gpa`/`>=`: `gpaMap[form.gpa_band] >= ((val.min as number) ?? 0)`;
    an unrecognized band gives `undefined >= x`, which is `false`.
  - `degree`/`in`: `val.degrees?.includes(form.degree)`.
  - `work_experience`/`>=`: `form.work_experience_years >= ((val.years) ?? 0)`.
  - any other (rule_type, operator) pair: the `else` branch, `matches++`. -/
def rulePasses (f : FormData) (r : EligibilityRule) : Bool :=
  if r.rule_type = "nationality" ∧ r.operator = "in" then
    match r.value.countries with
    | some cs => decide (f.nationality ∈ cs)
    | none => false
  else if r.rule_type = "gpa" ∧ r.operator = ">=" then
    match gpaMap f.gpa_band with
    | some m => decide ((r.value.min).getD 0 ≤ m)
    | none => false
  else if r.rule_type = "degree" ∧ r.operator = "in" then
    match r.value.degrees with
    | some ds => decide (f.degree ∈ ds)
    | none => false
  else if r.rule_type = "work_experience" ∧ r.operator = ">=" then
    decide ((r.value.years).getD 0 ≤ f.work_experience_years)
  else
    true

/-- The value of the `matches` counter after the rule loop. -/
def countMatches (f : FormData) (rs : List EligibilityRule) : Nat :=
  (rs.filter (fun r => rulePasses f r)).length

/-- The value of the `fails` counter after the rule loop. -/
def countFails (f : FormData) (rs : List EligibilityRule) : Nat :=
  (rs.filter (fun r => !(rulePasses f r))).length

/-- The three output buckets. -/
inductive Bucket where
  | eligible
  | maybe
  | not_eligible
deriving DecidableEq

/-- Bucket assignment for the rule list of a single program:
zero rules → `maybe`; otherwise `fails == 0 && matches > 0` → `eligible`,
`fails > 0 && matches > 0` → `maybe`, else → `not_eligible`. -/
def classify (f : FormData) (rs : List EligibilityRule) : Bucket :=
  if rs.length = 0 then Bucket.maybe
  else if countFails f rs = 0 ∧ 0 < countMatches f rs then Bucket.eligible
  else if 0 < countFails f rs ∧ 0 < countMatches f rs then Bucket.maybe
  else Bucket.not_eligible

/-- The whole evaluator loop: classify each program in order into the
triple `(eligible, maybe, not_eligible)` of bucket lists. -/
def evaluate (f : FormData) :
    List Program → List Program × List Program × List Program
  | [] => ([], [], [])
  | p :: rest =>
    let acc := evaluate f rest
    match classify f p.eligibility_rules with
    | Bucket.eligible => (p :: acc.1, acc.2.1, acc.2.2)
    | Bucket.maybe => (acc.1, p :: acc.2.1, acc.2.2)
    | Bucket.not_eligible => (acc.1, acc.2.1, p :: acc.2.2)

/-! ## Basic counter lemmas -/

theorem countMatches_add_countFails (f : FormData) (rs : List EligibilityRule) :
    countMatches f rs + countFails f rs = rs.length := by
  induction rs with
  | nil => rfl
  | cons r rest ih =>
    by_cases h : rulePasses f r = true <;>
      simp [countMatches, countFails, List.filter_cons, h] at ih ⊢ <;> omega

theorem countFails_eq_zero_iff (f : FormData) (rs : List EligibilityRule) :
    countFails f rs = 0 ↔ ∀ r ∈ rs, rulePasses f r = true := by
  simp [countFails, List.length_eq_zero, List.filter_eq_nil_iff]

theorem countMatches_eq_zero_iff (f : FormData) (rs : List EligibilityRule) :
    countMatches f rs = 0 ↔ ∀ r ∈ rs, rulePasses f r = false := by
  simp [countMatches, List.length_eq_zero, List.filter_eq_nil_iff]

/-! ## Characterizations of the three buckets for a single program -/

theorem classify_eq_eligible_iff (f : FormData) (rs : List EligibilityRule) :
    classify f rs = Bucket.eligible ↔
      rs ≠ [] ∧ ∀ r ∈ rs, rulePasses f r = true := by
  have hsum := countMatches_add_countFails f rs
  constructor
  · intro h
    unfold classify at h
    split at h
    · exact absurd h (by simp)
    · split at h
      · rename_i hlen hcond
        refine ⟨fun hnil => hlen (by simp [hnil]), ?_⟩
        exact (countFails_eq_zero_iff f rs).mp hcond.1
      · split at h <;> exact absurd h (by simp)
  · rintro ⟨hne, hall⟩
    have hlen : rs.length ≠ 0 := by simpa using hne
    have hf : countFails f rs = 0 := (countFails_eq_zero_iff f rs).mpr hall
    have hm : 0 < countMatches f rs := by omega
    unfold classify
    simp [hlen, hf, hm]

theorem classify_eq_not_eligible_iff (f : FormData) (rs : List EligibilityRule) :
    classify f rs = Bucket.not_eligible ↔
      rs ≠ [] ∧ ∀ r ∈ rs, rulePasses f r = false := by
  have hsum := countMatches_add_countFails f rs
  constructor
  · intro h
    unfold classify at h
    split at h
    · exact absurd h (by simp)
    · rename_i hlen
      split at h
      · exact absurd h (by simp)
      · split at h
        · exact absurd h (by simp)
        · rename_i h1 h2
          refine ⟨fun hnil => hlen (by simp [hnil]), ?_⟩
          apply (countMatches_eq_zero_iff f rs).mp
          omega
  · rintro ⟨hne, hall⟩
    have hlen : rs.length ≠ 0 := by simpa using hne
    have hm : countMatches f rs = 0 := (countMatches_eq_zero_iff f rs).mpr hall
    unfold classify
    simp [hlen, hm]

theorem classify_empty (f : FormData) : classify f [] = Bucket.maybe := rfl

/-! ## The evaluator as a triple of filters -/

def bucketFilter (f : FormData) (b : Bucket) (ps : List Program) : List Program :=
  ps.filter (fun p => decide (classify f p.eligibility_rules = b))

theorem evaluate_eq_filters (f : FormData) (ps : List Program) :
    evaluate f ps =
      (bucketFilter f Bucket.eligible ps,
       bucketFilter f Bucket.maybe ps,
       bucketFilter f Bucket.not_eligible ps) := by
  induction ps with
  | nil => rfl
  | cons p rest ih =>
    unfold evaluate bucketFilter
    rw [ih]
    cases h : classify f p.eligibility_rules <;>
      simp [bucketFilter, List.filter_cons, h]

theorem mem_evaluate_eligible (f : FormData) (ps : List Program) (p : Program) :
    p ∈ (evaluate f ps).1 ↔
      p ∈ ps ∧ classify f p.eligibility_rules = Bucket.eligible := by
  rw [evaluate_eq_filters]
  simp [bucketFilter, List.mem_filter]

theorem mem_evaluate_maybe (f : FormData) (ps : List Program) (p : Program) :
    p ∈ (evaluate f ps).2.1 ↔
      p ∈ ps ∧ classify f p.eligibility_rules = Bucket.maybe := by
  rw [evaluate_eq_filters]
  simp [bucketFilter, List.mem_filter]

theorem mem_evaluate_not_eligible (f : FormData) (ps : List Program) (p : Program) :
    p ∈ (evaluate f ps).2.2 ↔
      p ∈ ps ∧ classify f p.eligibility_rules = Bucket.not_eligible := by
  rw [evaluate_eq_filters]
  simp [bucketFilter, List.mem_filter]

theorem evaluate_length_sum (f : FormData) (ps : List Program) :
    (evaluate f ps).1.length + (evaluate f ps).2.1.length
      + (evaluate f ps).2.2.length = ps.length := by
  induction ps with
  | nil => rfl
  | cons p rest ih =>
    unfold evaluate
    cases h : classify f p.eligibility_rules <;> simp [h] <;> omega

theorem classify_eq_eligible_iff_counts (f : FormData) (rs : List EligibilityRule) :
    classify f rs = Bucket.eligible ↔
      countFails f rs = 0 ∧ 0 < countMatches f rs := by
  have hsum := countMatches_add_countFails f rs
  rw [classify_eq_eligible_iff, ← countFails_eq_zero_iff]
  constructor
  · rintro ⟨hne, hf⟩
    have hlen : rs.length ≠ 0 := by simpa using hne
    exact ⟨hf, by omega⟩
  · rintro ⟨hf, hm⟩
    refine ⟨?_, hf⟩
    intro hnil
    subst hnil
    simp [countMatches] at hm

theorem classify_eq_not_eligible_iff_counts (f : FormData) (rs : List EligibilityRule) :
    classify f rs = Bucket.not_eligible ↔
      rs ≠ [] ∧ countMatches f rs = 0 := by
  rw [classify_eq_not_eligible_iff, ← countMatches_eq_zero_iff]

/-- Every midpoint in the GPA lookup table is nonnegative. -/
theorem gpaMap_nonneg (s : String) (m : ℚ) (h : gpaMap s = some m) : 0 ≤ m := by
  unfold gpaMap at h
  split at h <;>
    first
      | (injection h with h; subst h; norm_num)
      | exact absurd h (by simp)

/-! ## Concrete sample data (used by witnesses and counterexamples) -/

/-- The worked example profile of the spec: Ghanaian BSc holder, GPA band
3.5 to 4.0, two years of work experience. -/
def sampleProfile : FormData :=
  { nationality := "Ghana", degree := "BSc", gpa_band := "3.5_4.0",
    field := "Computer Science", work_experience_years := 2 }

/-- A rule `value` payload with none of the recognized fields present. -/
def emptyValue : RuleValue :=
  { countries := none, min := none, degrees := none, years := none }

def ghanaRule : EligibilityRule :=
  { rule_type := "nationality", operator := "in",
    value := { emptyValue with countries := some ["Ghana", "Nigeria"] },
    confidence := "high" }

def kenyaRule : EligibilityRule :=
  { rule_type := "nationality", operator := "in",
    value := { emptyValue with countries := some ["Kenya"] },
    confidence := "high" }

def gpaMinRule : EligibilityRule :=
  { rule_type := "gpa", operator := ">=",
    value := { emptyValue with min := some (7 / 2) },
    confidence := "high" }

def languageRule : EligibilityRule :=
  { rule_type := "language", operator := "in", value := emptyValue,
    confidence := "medium" }

/-- A nationality/in rule whose payload lacks the `countries` array. -/
def natNoCountriesRule : EligibilityRule :=
  { rule_type := "nationality", operator := "in", value := emptyValue,
    confidence := "high" }

/-- A work_experience/>= rule whose payload lacks the `years` field. -/
def weNoYearsRule : EligibilityRule :=
  { rule_type := "work_experience", operator := ">=", value := emptyValue,
    confidence := "inferred" }

/-- A gpa rule with the unhandled operator `>`. -/
def gpaGtRule : EligibilityRule :=
  { rule_type := "gpa", operator := ">",
    value := { emptyValue with min := some 4 },
    confidence := "high" }

/-- A nationality/in rule whose countries list contains the empty string. -/
def emptyStringCountryRule : EligibilityRule :=
  { rule_type := "nationality", operator := "in",
    value := { emptyValue with countries := some [""] },
    confidence := "high" }

def programA : Program :=
  { id := "A", name := "Program A", provider := "Provider A",
    level := "masters", eligibility_rules := [ghanaRule, gpaMinRule] }

def programB : Program :=
  { id := "B", name := "Program B", provider := "Provider B",
    level := "phd", eligibility_rules := [kenyaRule] }

def programD : Program :=
  { id := "D", name := "Program D", provider := "Provider D",
    level := "bachelor", eligibility_rules := [] }

def programE : Program :=
  { id := "E", name := "Program E", provider := "Provider E",
    level := "masters", eligibility_rules := [languageRule] }

def samplePrograms : List Program := [programA, programB, programD]

def allEmptyProfile : FormData :=
  { nationality := "", degree := "", gpa_band := "", field := "",
    work_experience_years := 0 }

def lowGpaProfile : FormData :=
  { nationality := "Togo", degree := "BSc", gpa_band := "below_2.5",
    field := "", work_experience_years := 0 }

def emptyNationalityProfile : FormData :=
  { nationality := "", degree := "BSc", gpa_band := "3.0_3.5", field := "",
    work_experience_years := 0 }

/-- Concrete evaluation: the Ghana nationality rule passes for the sample
profile. -/
theorem ghanaRule_passes : rulePasses sampleProfile ghanaRule = true := by
  decide

/-- Concrete evaluation: the GPA minimum 3.5 rule passes for the sample
profile (band 3.5_4.0, midpoint 3.75). -/
theorem gpaMinRule_passes : rulePasses sampleProfile gpaMinRule = true := by
  simp [rulePasses, sampleProfile, gpaMinRule, emptyValue, gpaMap]
  norm_num

/-- Concrete evaluation: the Kenya nationality rule fails for the sample
profile. -/
theorem kenyaRule_fails : rulePasses sampleProfile kenyaRule = false := by
  decide

/-! ## Claim theorems -/

/-- Claim C1: for every profile and list of programs, the evaluator
classifies each input program into exactly one of the three buckets: the
bucket lengths sum to the number of input programs, a program lies in some
bucket iff it is an input program, and no program lies in two buckets. -/
theorem evaluator_totality (f : FormData) (ps : List Program) :
    ((evaluate f ps).1.length + (evaluate f ps).2.1.length
        + (evaluate f ps).2.2.length = ps.length)
    ∧ (∀ p : Program,
        (p ∈ (evaluate f ps).1 ∨ p ∈ (evaluate f ps).2.1
          ∨ p ∈ (evaluate f ps).2.2) ↔ p ∈ ps)
    ∧ (∀ p : Program, ¬(p ∈ (evaluate f ps).1 ∧ p ∈ (evaluate f ps).2.1))
    ∧ (∀ p : Program, ¬(p ∈ (evaluate f ps).1 ∧ p ∈ (evaluate f ps).2.2))
    ∧ (∀ p : Program, ¬(p ∈ (evaluate f ps).2.1 ∧ p ∈ (evaluate f ps).2.2)) := by
  refine ⟨evaluate_length_sum f ps, ?_, ?_, ?_, ?_⟩
  · intro p
    simp only [mem_evaluate_eligible, mem_evaluate_maybe,
      mem_evaluate_not_eligible]
    constructor
    · rintro (⟨h, _⟩ | ⟨h, _⟩ | ⟨h, _⟩) <;> exact h
    · intro hp
      cases hb : classify f p.eligibility_rules with
      | eligible => exact Or.inl ⟨hp, rfl⟩
      | maybe => exact Or.inr (Or.inl ⟨hp, rfl⟩)
      | not_eligible => exact Or.inr (Or.inr ⟨hp, rfl⟩)
  · intro p
    simp only [mem_evaluate_eligible, mem_evaluate_maybe]
    rintro ⟨⟨_, h1⟩, ⟨_, h2⟩⟩
    rw [h1] at h2
    exact Bucket.noConfusion h2
  · intro p
    simp only [mem_evaluate_eligible, mem_evaluate_not_eligible]
    rintro ⟨⟨_, h1⟩, ⟨_, h2⟩⟩
    rw [h1] at h2
    exact Bucket.noConfusion h2
  · intro p
    simp only [mem_evaluate_maybe, mem_evaluate_not_eligible]
    rintro ⟨⟨_, h1⟩, ⟨_, h2⟩⟩
    rw [h1] at h2
    exact Bucket.noConfusion h2

/-- Witness for claim C1 at the sample profile and catalog. -/
theorem evaluator_totality_witness :
    ((evaluate sampleProfile samplePrograms).1.length
      + (evaluate sampleProfile samplePrograms).2.1.length
      + (evaluate sampleProfile samplePrograms).2.2.length
      = samplePrograms.length)
    ∧ ¬(programA ∈ (evaluate sampleProfile samplePrograms).1
        ∧ programA ∈ (evaluate sampleProfile samplePrograms).2.1) :=
  ⟨(evaluator_totality sampleProfile samplePrograms).1,
   (evaluator_totality sampleProfile samplePrograms).2.2.1 programA⟩

/-- Claim C2: a program lands in the eligible bucket iff it is an input
program with at least one rule, all of whose comparators passed;
equivalently, iff after the rule loop fails = 0 and matches > 0. -/
theorem eligible_bucket_iff (f : FormData) (ps : List Program) (p : Program) :
    (p ∈ (evaluate f ps).1 ↔
        p ∈ ps ∧ p.eligibility_rules ≠ [] ∧
          ∀ r ∈ p.eligibility_rules, rulePasses f r = true)
    ∧ (p ∈ (evaluate f ps).1 ↔
        p ∈ ps ∧ countFails f p.eligibility_rules = 0 ∧
          0 < countMatches f p.eligibility_rules) := by
  constructor
  · rw [mem_evaluate_eligible, classify_eq_eligible_iff]
  · rw [mem_evaluate_eligible, classify_eq_eligible_iff_counts]

/-- Witness for claim C2: program A (Ghana nationality rule plus GPA ≥ 3.5
rule, both passing) is in the eligible bucket. -/
theorem eligible_bucket_iff_witness :
    programA ∈ (evaluate sampleProfile samplePrograms).1 :=
  ((eligible_bucket_iff sampleProfile samplePrograms programA).1).mpr
    ⟨List.Mem.head _, by simp [programA], by
      intro r hr
      simp [programA] at hr
      rcases hr with rfl | rfl
      · exact ghanaRule_passes
      · exact gpaMinRule_passes⟩

/-- Claim C3: a program lands in the not_eligible bucket iff it is an input
program with at least one rule, all of whose comparators failed;
equivalently, iff after the rule loop matches = 0. -/
theorem not_eligible_bucket_iff (f : FormData) (ps : List Program)
    (p : Program) :
    (p ∈ (evaluate f ps).2.2 ↔
        p ∈ ps ∧ p.eligibility_rules ≠ [] ∧
          ∀ r ∈ p.eligibility_rules, rulePasses f r = false)
    ∧ (p ∈ (evaluate f ps).2.2 ↔
        p ∈ ps ∧ p.eligibility_rules ≠ [] ∧
          countMatches f p.eligibility_rules = 0) := by
  constructor
  · rw [mem_evaluate_not_eligible, classify_eq_not_eligible_iff]
  · rw [mem_evaluate_not_eligible, classify_eq_not_eligible_iff_counts]

/-- Witness for claim C3: program B (single Kenya nationality rule, which
fails for the Ghanaian sample profile) is in the not_eligible bucket. -/
theorem not_eligible_bucket_iff_witness :
    programB ∈ (evaluate sampleProfile samplePrograms).2.2 :=
  ((not_eligible_bucket_iff sampleProfile samplePrograms programB).1).mpr
    ⟨List.Mem.tail _ (List.Mem.head _), by simp [programB], by
      intro r hr
      simp [programB] at hr
      subst hr
      exact kenyaRule_fails⟩

/-- Claim C4: a program with zero attached rules is always classified
maybe, never eligible or not_eligible. -/
theorem no_rules_classified_maybe (f : FormData) (ps : List Program)
    (p : Program) (hp : p ∈ ps) (hrules : p.eligibility_rules = []) :
    p ∈ (evaluate f ps).2.1 ∧ p ∉ (evaluate f ps).1
      ∧ p ∉ (evaluate f ps).2.2 := by
  have hc : classify f p.eligibility_rules = Bucket.maybe := by
    rw [hrules]
    rfl
  refine ⟨(mem_evaluate_maybe f ps p).mpr ⟨hp, hc⟩, ?_, ?_⟩
  · intro h
    have h2 := ((mem_evaluate_eligible f ps p).mp h).2
    rw [hc] at h2
    exact Bucket.noConfusion h2
  · intro h
    have h2 := ((mem_evaluate_not_eligible f ps p).mp h).2
    rw [hc] at h2
    exact Bucket.noConfusion h2

/-- Witness for claim C4: program D, which has no rules, is in the maybe
bucket and in neither of the other two. -/
theorem no_rules_classified_maybe_witness :
    programD ∈ (evaluate sampleProfile samplePrograms).2.1
    ∧ programD ∉ (evaluate sampleProfile samplePrograms).1
    ∧ programD ∉ (evaluate sampleProfile samplePrograms).2.2 :=
  no_rules_classified_maybe sampleProfile samplePrograms programD
    (List.Mem.tail _ (List.Mem.tail _ (List.Mem.head _))) rfl

/-- Claim C5 counterexample: a nationality/in rule whose value payload
lacks the countries array is counted as a fail (fails = 1, matches = 0),
and its program is classified not_eligible — not treated as an automatic
pass incrementing matches. -/
theorem malformed_rule_pass_counterexample :
    natNoCountriesRule.rule_type = "nationality"
    ∧ natNoCountriesRule.operator = "in"
    ∧ natNoCountriesRule.value.countries = none
    ∧ rulePasses sampleProfile natNoCountriesRule = false
    ∧ countMatches sampleProfile [natNoCountriesRule] = 0
    ∧ countFails sampleProfile [natNoCountriesRule] = 1
    ∧ classify sampleProfile [natNoCountriesRule] = Bucket.not_eligible := by
  decide

/-- Claim C5 (amended): a nationality/in rule without a countries array and
a degree/in rule without a degrees array count as fails, not automatic
passes; the malformed rule never aborts the batch — every program of any
catalog is still classified into one of the three buckets. -/
theorem malformed_array_payload_fails (f : FormData) (r : EligibilityRule)
    (hrec : (r.rule_type = "nationality" ∧ r.operator = "in"
              ∧ r.value.countries = none)
          ∨ (r.rule_type = "degree" ∧ r.operator = "in"
              ∧ r.value.degrees = none)) :
    rulePasses f r = false
    ∧ ∀ ps : List Program,
        (evaluate f ps).1.length + (evaluate f ps).2.1.length
          + (evaluate f ps).2.2.length = ps.length := by
  refine ⟨?_, fun ps => evaluate_length_sum f ps⟩
  rcases hrec with ⟨h1, h2, h3⟩ | ⟨h1, h2, h3⟩
  · simp [rulePasses, h1, h2, h3]
  · simp [rulePasses, h1, h2, h3]

/-- Witness for the amended claim C5. -/
theorem malformed_array_payload_fails_witness :
    rulePasses sampleProfile natNoCountriesRule = false
    ∧ (evaluate sampleProfile samplePrograms).1.length
        + (evaluate sampleProfile samplePrograms).2.1.length
        + (evaluate sampleProfile samplePrograms).2.2.length
        = samplePrograms.length :=
  ⟨(malformed_array_payload_fails sampleProfile natNoCountriesRule
      (Or.inl ⟨rfl, rfl, rfl⟩)).1,
   (malformed_array_payload_fails sampleProfile natNoCountriesRule
      (Or.inl ⟨rfl, rfl, rfl⟩)).2 samplePrograms⟩

/-- Claim C6: for a gpa/>= rule carrying an explicit minimum q, the
comparator passes iff the fixed lookup table (below_2.5 → 2.0,
2.5_3.0 → 2.75, 3.0_3.5 → 3.25, 3.5_4.0 → 3.75, above_4.0 → 4.0) applied
to the profile band yields a midpoint that is ≥ q; the first conjunct pins
down the table entries themselves. -/
theorem gpa_ge_midpoint_table (f : FormData) (r : EligibilityRule) (q : ℚ)
    (ht : r.rule_type = "gpa") (ho : r.operator = ">=")
    (hm : r.value.min = some q) :
    (gpaMap "below_2.5" = some 2 ∧ gpaMap "2.5_3.0" = some (11 / 4)
      ∧ gpaMap "3.0_3.5" = some (13 / 4) ∧ gpaMap "3.5_4.0" = some (15 / 4)
      ∧ gpaMap "above_4.0" = some 4)
    ∧ (rulePasses f r = true ↔
        ∃ m, gpaMap f.gpa_band = some m ∧ q ≤ m) := by
  refine ⟨⟨rfl, rfl, rfl, rfl, rfl⟩, ?_⟩
  have hn1 : ¬(r.rule_type = "nationality" ∧ r.operator = "in") := by
    simp [ht]
  unfold rulePasses
  rw [if_neg hn1, if_pos ⟨ht, ho⟩]
  cases hg : gpaMap f.gpa_band with
  | none => simp
  | some m => simp [hm]

/-- Witness for claim C6: band 3.5_4.0 (midpoint 3.75) passes a minimum
of 3.5. -/
theorem gpa_ge_midpoint_table_witness :
    rulePasses sampleProfile gpaMinRule = true :=
  ((gpa_ge_midpoint_table sampleProfile gpaMinRule (7 / 2) rfl rfl rfl).2).mpr
    ⟨15 / 4, rfl, by norm_num⟩

/-- Claim C7: a (rule_type, operator) pair outside the four enumerated
comparators is an automatic match, and a program whose only rule is such a
rule is classified eligible. -/
theorem unknown_rule_auto_match (f : FormData) (r : EligibilityRule)
    (h : ¬((r.rule_type = "nationality" ∧ r.operator = "in")
        ∨ (r.rule_type = "gpa" ∧ r.operator = ">=")
        ∨ (r.rule_type = "degree" ∧ r.operator = "in")
        ∨ (r.rule_type = "work_experience" ∧ r.operator = ">="))) :
    rulePasses f r = true
    ∧ ∀ p : Program, p.eligibility_rules = [r] →
        classify f p.eligibility_rules = Bucket.eligible := by
  have h1 : ¬(r.rule_type = "nationality" ∧ r.operator = "in") :=
    fun hc => h (Or.inl hc)
  have h2 : ¬(r.rule_type = "gpa" ∧ r.operator = ">=") :=
    fun hc => h (Or.inr (Or.inl hc))
  have h3 : ¬(r.rule_type = "degree" ∧ r.operator = "in") :=
    fun hc => h (Or.inr (Or.inr (Or.inl hc)))
  have h4 : ¬(r.rule_type = "work_experience" ∧ r.operator = ">=") :=
    fun hc => h (Or.inr (Or.inr (Or.inr hc)))
  have hpass : rulePasses f r = true := by
    unfold rulePasses
    rw [if_neg h1, if_neg h2, if_neg h3, if_neg h4]
  refine ⟨hpass, ?_⟩
  intro p hp
  rw [hp, classify_eq_eligible_iff]
  refine ⟨by simp, ?_⟩
  intro r2 hr2
  simp at hr2
  subst hr2
  exact hpass

/-- Witness for claim C7: a language rule is an automatic match and program
E, whose only rule it is, is classified eligible. -/
theorem unknown_rule_auto_match_witness :
    rulePasses sampleProfile languageRule = true
    ∧ classify sampleProfile programE.eligibility_rules = Bucket.eligible :=
  ⟨(unknown_rule_auto_match sampleProfile languageRule (by decide)).1,
   (unknown_rule_auto_match sampleProfile languageRule (by decide)).2
      programE rfl⟩

/-- Claim C8 counterexample: with an empty nationality, a nationality/in
rule whose countries list contains the empty string passes instead of
failing, and its program is classified eligible. -/
theorem empty_field_fails_counterexample :
    emptyNationalityProfile.nationality = ""
    ∧ emptyStringCountryRule.rule_type = "nationality"
    ∧ emptyStringCountryRule.operator = "in"
    ∧ rulePasses emptyNationalityProfile emptyStringCountryRule = true
    ∧ classify emptyNationalityProfile [emptyStringCountryRule]
        = Bucket.eligible := by
  decide

/-- Claim C8 (amended): evaluation is total and never throws; an empty
nationality fails every nationality/in rule whose countries list does not
contain the empty string, an empty or unrecognized gpa_band fails every
gpa/>= rule, an empty degree fails every degree/in rule whose degrees list
does not contain the empty string, and classification of the whole catalog
always completes. -/
theorem empty_profile_field_fails (f : FormData) (r : EligibilityRule) :
    ((f.nationality = "" ∧ r.rule_type = "nationality" ∧ r.operator = "in"
        ∧ (∀ cs, r.value.countries = some cs → "" ∉ cs)) →
      rulePasses f r = false)
    ∧ ((gpaMap f.gpa_band = none ∧ r.rule_type = "gpa" ∧ r.operator = ">=") →
      rulePasses f r = false)
    ∧ ((f.degree = "" ∧ r.rule_type = "degree" ∧ r.operator = "in"
        ∧ (∀ ds, r.value.degrees = some ds → "" ∉ ds)) →
      rulePasses f r = false)
    ∧ ∀ ps : List Program,
        (evaluate f ps).1.length + (evaluate f ps).2.1.length
          + (evaluate f ps).2.2.length = ps.length := by
  refine ⟨?_, ?_, ?_, fun ps => evaluate_length_sum f ps⟩
  · rintro ⟨hn, ht, ho, hcs⟩
    unfold rulePasses
    rw [if_pos ⟨ht, ho⟩]
    cases hc : r.value.countries with
    | none => rfl
    | some cs =>
      rw [hn]
      exact decide_eq_false (hcs cs hc)
  · rintro ⟨hg, ht, ho⟩
    have h1 : ¬(r.rule_type = "nationality" ∧ r.operator = "in") := by
      simp [ht]
    unfold rulePasses
    rw [if_neg h1, if_pos ⟨ht, ho⟩, hg]
  · rintro ⟨hd, ht, ho, hds⟩
    have h1 : ¬(r.rule_type = "nationality" ∧ r.operator = "in") := by
      simp [ht]
    have h2 : ¬(r.rule_type = "gpa" ∧ r.operator = ">=") := by
      simp [ht]
    unfold rulePasses
    rw [if_neg h1, if_neg h2, if_pos ⟨ht, ho⟩]
    cases hc : r.value.degrees with
    | none => rfl
    | some ds =>
      rw [hd]
      exact decide_eq_false (hds ds hc)

/-- Witness for the amended claim C8: the all-empty profile fails the Ghana
nationality rule. -/
theorem empty_profile_field_fails_witness :
    rulePasses allEmptyProfile ghanaRule = false :=
  (empty_profile_field_fails allEmptyProfile ghanaRule).1
    ⟨rfl, rfl, rfl, fun cs hcs => by
      rw [show ghanaRule.value.countries = some ["Ghana", "Nigeria"]
            from rfl] at hcs
      injection hcs with hcs
      subst hcs
      decide⟩

/-- Claim C9 counterexample: a gpa rule with operator `>` and minimum 4 is
an automatic match for a profile in the lowest band (midpoint 2.0), making
its program eligible even though 2.0 > 4.0 is false — so the `>` operator
is not given comparison semantics. -/
theorem gpa_gt_comparison_counterexample :
    gpaGtRule.rule_type = "gpa"
    ∧ gpaGtRule.operator = ">"
    ∧ gpaGtRule.value.min = some 4
    ∧ gpaMap lowGpaProfile.gpa_band = some 2
    ∧ ¬((2 : ℚ) > 4)
    ∧ rulePasses lowGpaProfile gpaGtRule = true
    ∧ classify lowGpaProfile [gpaGtRule] = Bucket.eligible := by
  refine ⟨rfl, rfl, rfl, rfl, by norm_num, ?_, ?_⟩ <;> decide

/-- Claim C9 (amended): gpa rules with operators >, <=, < and between are
not given comparison semantics; they land in the permissive default branch
and count as automatic matches for every profile. -/
theorem gpa_other_ops_auto_match (f : FormData) (r : EligibilityRule)
    (ht : r.rule_type = "gpa")
    (ho : r.operator = ">" ∨ r.operator = "<=" ∨ r.operator = "<"
        ∨ r.operator = "between") :
    rulePasses f r = true := by
  have h1 : ¬(r.rule_type = "nationality" ∧ r.operator = "in") := by
    simp [ht]
  have h2 : ¬(r.rule_type = "gpa" ∧ r.operator = ">=") := by
    rcases ho with h | h | h | h <;> simp [h]
  have h3 : ¬(r.rule_type = "degree" ∧ r.operator = "in") := by
    simp [ht]
  have h4 : ¬(r.rule_type = "work_experience" ∧ r.operator = ">=") := by
    simp [ht]
  unfold rulePasses
  rw [if_neg h1, if_neg h2, if_neg h3, if_neg h4]

/-- Witness for the amended claim C9. -/
theorem gpa_other_ops_auto_match_witness :
    rulePasses lowGpaProfile gpaGtRule = true :=
  gpa_other_ops_auto_match lowGpaProfile gpaGtRule rfl (Or.inl rfl)

/-- Claim C10: missing numeric thresholds default to 0 while missing array
payloads fail — a gpa/>= rule with no min matches whenever the band maps to
a midpoint, a work_experience/>= rule with no years matches whenever the
profile years are nonnegative, whereas nationality/in with no countries
array and degree/in with no degrees array always count as fails. -/
theorem missing_value_asymmetry (f : FormData) (r : EligibilityRule) :
    ((r.rule_type = "gpa" ∧ r.operator = ">=" ∧ r.value.min = none) →
        ((gpaMap f.gpa_band).isSome → rulePasses f r = true))
    ∧ ((r.rule_type = "work_experience" ∧ r.operator = ">="
          ∧ r.value.years = none ∧ 0 ≤ f.work_experience_years) →
        rulePasses f r = true)
    ∧ ((r.rule_type = "nationality" ∧ r.operator = "in"
          ∧ r.value.countries = none) → rulePasses f r = false)
    ∧ ((r.rule_type = "degree" ∧ r.operator = "in"
          ∧ r.value.degrees = none) → rulePasses f r = false) := by
  refine ⟨?_, ?_, ?_, ?_⟩
  · rintro ⟨ht, ho, hm⟩ hsome
    obtain ⟨m, hg⟩ := Option.isSome_iff_exists.mp hsome
    have h1 : ¬(r.rule_type = "nationality" ∧ r.operator = "in") := by
      simp [ht]
    have hpos := gpaMap_nonneg f.gpa_band m hg
    unfold rulePasses
    rw [if_neg h1, if_pos ⟨ht, ho⟩, hg]
    simp [hm, hpos]
  · rintro ⟨ht, ho, hy, hw⟩
    have h1 : ¬(r.rule_type = "nationality" ∧ r.operator = "in") := by
      simp [ht]
    have h2 : ¬(r.rule_type = "gpa" ∧ r.operator = ">=") := by
      simp [ht]
    have h3 : ¬(r.rule_type = "degree" ∧ r.operator = "in") := by
      simp [ht]
    unfold rulePasses
    rw [if_neg h1, if_neg h2, if_neg h3, if_pos ⟨ht, ho⟩]
    simp [hy, hw]
  · rintro ⟨ht, ho, hc⟩
    unfold rulePasses
    rw [if_pos ⟨ht, ho⟩, hc]
  · rintro ⟨ht, ho, hd⟩
    have h1 : ¬(r.rule_type = "nationality" ∧ r.operator = "in") := by
      simp [ht]
    have h2 : ¬(r.rule_type = "gpa" ∧ r.operator = ">=") := by
      simp [ht]
    unfold rulePasses
    rw [if_neg h1, if_neg h2, if_pos ⟨ht, ho⟩, hd]

/-- Witness for claim C10: a work_experience/>= rule without a years field
passes for the sample profile, while a nationality/in rule without a
countries array fails. -/
theorem missing_value_asymmetry_witness :
    rulePasses sampleProfile weNoYearsRule = true
    ∧ rulePasses sampleProfile natNoCountriesRule = false :=
  ⟨(missing_value_asymmetry sampleProfile weNoYearsRule).2.1
      ⟨rfl, rfl, rfl, by norm_num [sampleProfile]⟩,
   (missing_value_asymmetry sampleProfile natNoCountriesRule).2.2.1
      ⟨rfl, rfl, rfl⟩⟩

end ScholarmapClient
